import Mathlib

/-!
Verification of the setlist.fm → Spotify playlist converter (`main.py`).

The development shallowly embeds the program:

* Python string primitives used by the code (`str.split`, `str.replace`,
  `str.strip`, `str.title`, substring containment) are modelled at the
  character-list level, faithful to CPython semantics for the ASCII inputs
  the program manipulates.
* `urllib.parse.urlparse` is modelled for its `netloc`/`path` fields,
  following CPython's `urlsplit` (scheme recognised only when the prefix
  before the first colon consists of scheme characters and starts with a
  letter; netloc only after a leading `//`; tab/CR/LF characters removed).
* A parsed HTML document (BeautifulSoup) is a forest of `Node`s;
  `find_all(tag, class_=c)` is a pre-order traversal collecting elements
  with the given tag whose class list contains `c`; `find` is its head;
  `.text` concatenates descendant text; the CSS selector
  `.setlistHeadline a[href*='/venue/']` is implemented directly.
* The network collaborators (`requests.get`, `spotipy` search / playlist
  calls) are an environment of oracle functions; the pipeline
  `process_setlist` returns its terminal outcome together with the list of
  observable events (network calls and extraction steps) it performed, in
  order.  Exception control flow becomes `Except`/`Option` values: each
  Python `try`/`except` handler corresponds to one `Outcome` constructor.
-/

namespace SetlistFM

/-! ### Python string primitives -/

/-- Characters stripped by Python `str.strip()` (ASCII whitespace). -/
def isPySpace (c : Char) : Bool :=
  c == ' ' || c == '\t' || c == '\n' || c == '\r' || c == '\x0b' || c == '\x0c'

/-- Python `str.strip()` on a character list. -/
def pyStripList (cs : List Char) : List Char :=
  ((cs.dropWhile isPySpace).reverse.dropWhile isPySpace).reverse

/-- Python `str.strip()`. -/
def pyStrip (s : String) : String :=
  String.mk (pyStripList s.toList)

/-- Does `pat` begin the list `cs`?  (Boolean, by character equality.) -/
def leadsWith : List Char → List Char → Bool
  | [], _ => true
  | _ :: _, [] => false
  | a :: as, b :: bs => a == b && leadsWith as bs

/-- Index of the first occurrence of `pat` in `cs` (Python `str.find`,
as used by both `in` and `str.split`). -/
def findSub (pat : List Char) : List Char → Option Nat
  | [] => if pat.isEmpty then some 0 else none
  | c :: cs =>
    if leadsWith pat (c :: cs) then some 0
    else (findSub pat cs).map (· + 1)

/-- Python substring test `pat in s`. -/
def containsSub (pat s : String) : Bool :=
  (findSub pat.toList s.toList).isSome

/-- Python `str.split(sep)` for a non-empty separator, with explicit fuel.
Each recursive step consumes at least `sep.length ≥ 1` characters, so fuel
`s.length + 1` always suffices; Python raises on an empty separator, which
the program never passes. -/
def pySplitFuel (sep : List Char) : Nat → List Char → List (List Char)
  | 0, s => [s]
  | fuel + 1, s =>
    match findSub sep s with
    | none => [s]
    | some i => s.take i :: pySplitFuel sep fuel (s.drop (i + sep.length))

/-- Python `str.split(sep)`. -/
def pySplit (sep s : String) : List String :=
  (pySplitFuel sep.toList (s.toList.length + 1) s.toList).map String.mk

/-- Python `str.replace(old, new)` (split on `old`, join with `new`). -/
def pyReplace (s old new : String) : String :=
  String.intercalate new (pySplit old s)

/-- Cased characters for Python `str.title` (ASCII letters). -/
def isCased (c : Char) : Bool :=
  decide ((65 ≤ c.toNat ∧ c.toNat ≤ 90) ∨ (97 ≤ c.toNat ∧ c.toNat ≤ 122))

/-- Uppercase an ASCII letter (identity elsewhere). -/
def upChar (c : Char) : Char :=
  if 97 ≤ c.toNat ∧ c.toNat ≤ 122 then Char.ofNat (c.toNat - 32) else c

/-- Lowercase an ASCII letter (identity elsewhere). -/
def downChar (c : Char) : Char :=
  if 65 ≤ c.toNat ∧ c.toNat ≤ 90 then Char.ofNat (c.toNat + 32) else c

/-- Python `str.title` worker: the flag records whether the previous
character was cased; a cased character after an uncased one is
uppercased, a cased character after a cased one is lowercased. -/
def titleAux : Bool → List Char → List Char
  | _, [] => []
  | prev, c :: cs =>
    if isCased c then (if prev then downChar c else upChar c) :: titleAux true cs
    else c :: titleAux false cs

/-- Python `str.title()` (ASCII model). -/
def pyTitle (s : String) : String :=
  String.mk (titleAux false s.toList)

/-! ### `urllib.parse.urlparse` (netloc/path model) -/

/-- The `scheme`, `netloc` and `path` fields of a parsed URL. -/
structure ParsedUrl where
  scheme : String
  netloc : String
  path : String
deriving Repr, DecidableEq

/-- Characters allowed in a URL scheme. -/
def isSchemeChar (c : Char) : Bool :=
  c.isAlpha || c.isDigit || c == '+' || c == '-' || c == '.'

/-- Scan up to the first `:`; succeed only if every character before it is
a scheme character. -/
def splitSchemeAux : List Char → List Char → Option (List Char × List Char)
  | _, [] => none
  | acc, c :: cs =>
    if c == ':' then some (acc.reverse, cs)
    else if isSchemeChar c then splitSchemeAux (c :: acc) cs
    else none

/-- CPython removes tab, CR and LF from the URL before splitting. -/
def isUnsafeUrlChar (c : Char) : Bool :=
  c == '\t' || c == '\r' || c == '\n'

/-- Model of `urllib.parse.urlparse`, restricted to the fields the program
reads: the scheme (recognised only when non-empty, starting with a letter),
the netloc (present only after a leading `//`, ending at `/`, `?` or `#`)
and the path (ending at `?` or `#`). -/
def urlparse (url : String) : ParsedUrl :=
  let cs := url.toList.filter (fun c => !isUnsafeUrlChar c)
  let schemeRest : List Char × List Char :=
    match splitSchemeAux [] cs with
    | some (sch, r) =>
      match sch with
      | c0 :: _ => if c0.isAlpha then (sch.map downChar, r) else ([], cs)
      | [] => ([], cs)
    | none => ([], cs)
  let netlocRest : List Char × List Char :=
    match schemeRest.2 with
    | '/' :: '/' :: r =>
      (r.takeWhile (fun c => !(c == '/' || c == '?' || c == '#')),
       r.dropWhile (fun c => !(c == '/' || c == '?' || c == '#')))
    | other => ([], other)
  let pathCs := netlocRest.2.takeWhile (fun c => !(c == '?' || c == '#'))
  ⟨String.mk schemeRest.1, String.mk netlocRest.1, String.mk pathCs⟩

/-! ### The converter's pure helpers (from `main.py`) -/

/-- `SetlistConverter.validate_setlist_url` (main.py:45-54): the host must
be `www.setlist.fm` and the path must contain `/setlist/`. -/
def validate_setlist_url (url : String) : Bool :=
  let parsed := urlparse url
  parsed.netloc == "www.setlist.fm" && containsSub "/setlist/" parsed.path

/-- `SetlistConverter.slug_to_plain` (main.py:68-71). -/
def slug_to_plain (text : String) : String :=
  pyReplace text "-" " "

/-- The artist derivation of main.py:133:
`url.split("setlist.fm/setlist/")[1].split("/")[0]` fed to
`slug_to_plain`; `none` models the `IndexError` raised when the separator
does not occur in the URL (the split yields a single piece). -/
def deriveArtist (url : String) : Option String :=
  match pySplit "setlist.fm/setlist/" url with
  | _ :: second :: _ => some (slug_to_plain ((pySplit "/" second).headD ""))
  | _ => none

/-! ### Parsed HTML documents (BeautifulSoup model) -/

/-- A node of the parsed document: raw text, or an element with a tag,
a class list, an optional `href` attribute and child nodes. -/
inductive Node where
  | textNode (s : String)
  | elem (tag : String) (classes : List String) (href : Option String)
      (children : List Node)

/-- The children of a node. -/
def childrenOf : Node → List Node
  | .textNode _ => []
  | .elem _ _ _ ch => ch

mutual

/-- BeautifulSoup `.text`: concatenation of all descendant text. -/
def nodeText : Node → String
  | .textNode s => s
  | .elem _ _ _ ch => nodesText ch

/-- `.text` over a list of nodes, in order. -/
def nodesText : List Node → String
  | [] => ""
  | n :: ns => nodeText n ++ nodesText ns

end

mutual

/-- `find_all(tag, class_=cls)` restricted to one node: the node itself if
it matches, followed by the matches among its descendants, pre-order. -/
def findAllNode (tag cls : String) : Node → List Node
  | .textNode _ => []
  | .elem t cs h ch =>
    (if t == tag && cs.contains cls then [Node.elem t cs h ch] else [])
      ++ findAllList tag cls ch

/-- `find_all(tag, class_=cls)` over a forest, in document order. -/
def findAllList (tag cls : String) : List Node → List Node
  | [] => []
  | n :: ns => findAllNode tag cls n ++ findAllList tag cls ns

end

mutual

/-- Matches of the CSS selector `.setlistHeadline a[href*='/venue/']`
below one node; the flag records whether some ancestor carries the class
`setlistHeadline`. -/
def venueCandsNode (inHeadline : Bool) : Node → List Node
  | .textNode _ => []
  | .elem t cs h ch =>
    (if inHeadline && t == "a"
        && (match h with | some u => containsSub "/venue/" u | none => false)
     then [Node.elem t cs h ch] else [])
      ++ venueCandsList (inHeadline || cs.contains "setlistHeadline") ch

/-- Selector matches over a forest, in document order. -/
def venueCandsList (inHeadline : Bool) : List Node → List Node
  | [] => []
  | n :: ns => venueCandsNode inHeadline n ++ venueCandsList inHeadline ns

end

/-! ### The extractors (main.py) -/

/-- `SetlistConverter.get_date_of_setlist` (main.py:83-90): text of the
first `div.dateBlock` inside the first `div.dateBlockContainer`, line
breaks collapsed to spaces, stripped.  A missing container or block raises
`AttributeError`, converted to `SetlistError`; the error value carries the
`SetlistError` message prefix. -/
def get_date_of_setlist (doc : List Node) : Except String String :=
  match (findAllList "div" "dateBlockContainer" doc).head? with
  | none => .error "Failed to extract setlist date"
  | some container =>
    match (findAllList "div" "dateBlock" (childrenOf container)).head? with
    | none => .error "Failed to extract setlist date"
    | some block => .ok (pyStrip (pyReplace (nodeText block) "\n" " "))

/-- `SetlistConverter.get_venue` (main.py:118-124): trimmed text of the
first `.setlistHeadline a[href*='/venue/']`; absence raises
`AttributeError`, converted to `SetlistError`. -/
def get_venue (doc : List Node) : Except String String :=
  match (venueCandsList false doc).head? with
  | none => .error "Failed to extract venue"
  | some n => .ok (pyStrip (nodeText n))

/-- `SetlistConverter.get_song_labels` (main.py:73-81): within the first
`ol.songsList`, the stripped texts of all `a.songLabel` descendants, in
document order, dropping those that strip to empty.  An absent songs list
raises `IndexError` on `songs_list[0]`, converted to `SetlistError`. -/
def get_song_labels (doc : List Node) : Except String (List String) :=
  match (findAllList "ol" "songsList" doc).head? with
  | none => .error "Failed to extract song labels"
  | some ol =>
    .ok (((findAllList "a" "songLabel" (childrenOf ol)).map
            (fun l => pyStrip (nodeText l))).filter (fun s => s ≠ ""))

/-- `SetlistConverter.is_empty_setlist` (main.py:113-116):
`bool(souped.find("div", class_="emptySetlist"))`, modelled as presence of
the marker element. -/
def is_empty_setlist (doc : List Node) : Bool :=
  ((findAllList "div" "emptySetlist" doc).head?).isSome

/-! ### The pipeline and its collaborators -/

/-- Result of `requests.get` followed by `raise_for_status`:
either a transport-level failure (`requests.exceptions.RequestException`)
or a response with an HTTP status code and a parsed body. -/
inductive FetchResult where
  | transportError (msg : String)
  | response (status : Nat) (doc : List Node)

/-- Result of the `spotipy` track search: the ranked candidate list (each
candidate abstracted to its external Spotify URL), or a service/transport
failure. -/
inductive SearchResult where
  | ok (items : List String)
  | err (msg : String)

/-- The external collaborators of the pipeline: HTTP fetch, track search,
the authenticated user id, playlist creation (user id, name, visibility)
and the add-items call. -/
structure Env where
  fetch : String → FetchResult
  search : String → String → SearchResult
  userId : String
  createPlaylistApi : String → String → Bool → Except String String
  addItemsApi : String → List String → Except String Unit

/-- Observable events of one `process_setlist` run, in order: network
calls and the extraction steps actually entered. -/
inductive Event where
  | httpGet (url : String)
  | dateStep
  | venueStep
  | emptyCheck
  | songsStep
  | searchCall (artist song : String)
  | createCall (name : String)
  | addCall (playlistId : String) (links : List String)
deriving Repr, DecidableEq

/-- Terminal outcome of one `process_setlist` run; each constructor
corresponds to one logged exit of main.py:126-170:
`invalidUrl` to the early return at 128-130, `unexpectedError` to the
generic handler at 169-170, `fetchFailed` to the `RequestException`
handler at 165-166, `errorProcessing` to the `SetlistError` handler at
167-168 (carrying the `SetlistError` message), `emptySkip` to 143-145,
`noMatches` to 156-158, `created` to the full run through 160-163. -/
inductive Outcome where
  | invalidUrl
  | unexpectedError (msg : String)
  | fetchFailed (msg : String)
  | errorProcessing (msg : String)
  | emptySkip
  | noMatches
  | created (name : String)
deriving Repr, DecidableEq

/-- `SetlistConverter.get_song_link` (main.py:56-66): one search call; the
first candidate's URL if any, `none` both when the candidate list is empty
(`IndexError` handler) and when the search call fails (generic handler). -/
def get_song_link (env : Env) (artist song : String) : Option String :=
  match env.search artist song with
  | .ok [] => none
  | .ok (item :: _) => some item
  | .err _ => none

/-- `SetlistConverter.process_setlist` (main.py:126-170), step by step:
validate the URL; derive the artist from the slug (an absent
`setlist.fm/setlist/` separator raises `IndexError`, landing in the
generic handler before any network call); HTTP GET; `raise_for_status`
(an `HTTPError` only for 4xx/5xx statuses); extract date and venue; the
empty-setlist check; extract song labels; resolve every label in order;
skip when nothing resolved; create the playlist under the title-cased
`"{artist} - {date} - {venue}"` name; add the resolved links. -/
def process_setlist (env : Env) (pub : Bool) (url : String) :
    Outcome × List Event :=
  if validate_setlist_url url then
    match deriveArtist url with
    | none => (.unexpectedError "list index out of range", [])
    | some artist =>
      match env.fetch url with
      | .transportError m => (.fetchFailed m, [.httpGet url])
      | .response status doc =>
        if 400 ≤ status ∧ status < 600 then
          (.fetchFailed ("HTTP " ++ toString status), [.httpGet url])
        else
          match get_date_of_setlist doc with
          | .error m => (.errorProcessing m, [.httpGet url, .dateStep])
          | .ok setlistDate =>
            match get_venue doc with
            | .error m =>
              (.errorProcessing m, [.httpGet url, .dateStep, .venueStep])
            | .ok venue =>
              if is_empty_setlist doc then
                (.emptySkip, [.httpGet url, .dateStep, .venueStep, .emptyCheck])
              else
                match get_song_labels doc with
                | .error m =>
                  (.errorProcessing m,
                   [.httpGet url, .dateStep, .venueStep, .emptyCheck, .songsStep])
                | .ok labels =>
                  let evs := [Event.httpGet url, .dateStep, .venueStep,
                      .emptyCheck, .songsStep]
                    ++ labels.map (fun l => Event.searchCall artist l)
                  let links := labels.filterMap
                    (fun l => get_song_link env artist l)
                  if links.isEmpty then (.noMatches, evs)
                  else
                    let name := pyTitle
                      (artist ++ " - " ++ setlistDate ++ " - " ++ venue)
                    match env.createPlaylistApi env.userId name pub with
                    | .error m =>
                      (.errorProcessing ("Failed to create playlist: " ++ m),
                       evs ++ [.createCall name])
                    | .ok pid =>
                      match env.addItemsApi pid links with
                      | .error m =>
                        (.errorProcessing
                          ("Failed to add songs to playlist: " ++ m),
                         evs ++ [.createCall name, .addCall pid links])
                      | .ok _ =>
                        (.created name,
                         evs ++ [.createCall name, .addCall pid links])
  else (.invalidUrl, [])

/-- The batch loop of `main` (main.py:219-220): each URL processed in
order, independently. -/
def processBatch (env : Env) (pub : Bool) : List String → List (Outcome × List Event)
  | [] => []
  | u :: us => process_setlist env pub u :: processBatch env pub us


/-! ### Character-case lemmas and idempotence of `pyTitle` -/

theorem toNat_ofNat_small (n : Nat) (h : n < 55296) : (Char.ofNat n).toNat = n := by
  have hv : n.isValidChar := Or.inl h
  simp [Char.ofNat, hv, Char.ofNatAux, Char.toNat, UInt32.toNat, BitVec.toNat_ofNatLt]

theorem upChar_toNat (c : Char) (h : 97 ≤ c.toNat ∧ c.toNat ≤ 122) :
    (upChar c).toNat = c.toNat - 32 := by
  rw [upChar, if_pos h]
  exact toNat_ofNat_small _ (by omega)

theorem downChar_toNat (c : Char) (h : 65 ≤ c.toNat ∧ c.toNat ≤ 90) :
    (downChar c).toNat = c.toNat + 32 := by
  rw [downChar, if_pos h]
  exact toNat_ofNat_small _ (by omega)

theorem upChar_id (c : Char) (h : ¬(97 ≤ c.toNat ∧ c.toNat ≤ 122)) : upChar c = c := by
  rw [upChar, if_neg h]

theorem downChar_id (c : Char) (h : ¬(65 ≤ c.toNat ∧ c.toNat ≤ 90)) : downChar c = c := by
  rw [downChar, if_neg h]

theorem isCased_upChar (c : Char) : isCased (upChar c) = isCased c := by
  by_cases h : 97 ≤ c.toNat ∧ c.toNat ≤ 122
  · have h1 := upChar_toNat c h
    simp only [isCased, h1]
    rw [decide_eq_decide]
    omega
  · rw [upChar_id c h]

theorem isCased_downChar (c : Char) : isCased (downChar c) = isCased c := by
  by_cases h : 65 ≤ c.toNat ∧ c.toNat ≤ 90
  · have h1 := downChar_toNat c h
    simp only [isCased, h1]
    rw [decide_eq_decide]
    omega
  · rw [downChar_id c h]

theorem upChar_upChar (c : Char) : upChar (upChar c) = upChar c := by
  by_cases h : 97 ≤ c.toNat ∧ c.toNat ≤ 122
  · have h1 := upChar_toNat c h
    apply upChar_id
    omega
  · rw [upChar_id c h]
    exact upChar_id c h

theorem downChar_downChar (c : Char) : downChar (downChar c) = downChar c := by
  by_cases h : 65 ≤ c.toNat ∧ c.toNat ≤ 90
  · have h1 := downChar_toNat c h
    apply downChar_id
    omega
  · rw [downChar_id c h]
    exact downChar_id c h

theorem titleAux_idem (cs : List Char) :
    ∀ b, titleAux b (titleAux b cs) = titleAux b cs := by
  induction cs with
  | nil => intro b; rfl
  | cons c cs ih =>
    intro b
    by_cases hc : isCased c = true
    · have h1 : titleAux b (c :: cs)
          = (if b then downChar c else upChar c) :: titleAux true cs := by
        simp [titleAux, hc]
      have hc2 : isCased (if b then downChar c else upChar c) = true := by
        cases b <;> simp [isCased_downChar, isCased_upChar, hc]
      have h2 : (if b then downChar (if b then downChar c else upChar c)
            else upChar (if b then downChar c else upChar c))
          = (if b then downChar c else upChar c) := by
        cases b <;> simp [downChar_downChar, upChar_upChar]
      rw [h1]
      simp only [titleAux, hc2, if_pos, ih true, h2]
    · have hc' : isCased c = false := by simpa using hc
      simp [titleAux, hc', ih false]

theorem pyTitle_idem (s : String) : pyTitle (pyTitle s) = pyTitle s :=
  congrArg String.mk (titleAux_idem s.toList false)

/-- The batch loop processes every URL, in order, independently. -/
theorem processBatch_eq_map (env : Env) (pub : Bool) :
    ∀ urls : List String, processBatch env pub urls = urls.map (process_setlist env pub)
  | [] => rfl
  | u :: us => by rw [processBatch, List.map_cons, processBatch_eq_map env pub us]


/-- When the separator does not occur, Python `split` returns the whole
string as the only piece. -/
theorem pySplit_of_no_occurrence (sep s : String)
    (h : findSub sep.toList s.toList = none) :
    pySplit sep s = [String.mk s.toList] := by
  simp only [pySplit, pySplitFuel, h, List.map_cons, List.map_nil]

/-- Classifier for search events in a trace. -/
def isSearchEvent : Event → Bool
  | .searchCall _ _ => true
  | _ => false

/-- Any `createCall` event in a run's trace comes from a run that passed
validation, artist derivation, fetch, both extractions, the empty check,
song extraction and the non-empty-resolution check, and carries the
title-cased composed name. -/
theorem createCall_mem_inversion (env : Env) (pub : Bool) (url name : String)
    (h : Event.createCall name ∈ (process_setlist env pub url).2) :
    ∃ st doc artist d v labels,
      validate_setlist_url url = true ∧
      deriveArtist url = some artist ∧
      env.fetch url = .response st doc ∧
      ¬(400 ≤ st ∧ st < 600) ∧
      get_date_of_setlist doc = .ok d ∧
      get_venue doc = .ok v ∧
      is_empty_setlist doc = false ∧
      get_song_labels doc = .ok labels ∧
      labels.filterMap (fun l => get_song_link env artist l) ≠ [] ∧
      name = pyTitle (artist ++ " - " ++ d ++ " - " ++ v) := by
  cases hv : validate_setlist_url url with
  | false => simp [process_setlist, hv] at h
  | true =>
  cases ha : deriveArtist url with
  | none => simp [process_setlist, hv, ha] at h
  | some artist =>
  cases hf : env.fetch url with
  | transportError m => simp [process_setlist, hv, ha, hf] at h
  | response st doc =>
  by_cases hst : 400 ≤ st ∧ st < 600
  · simp [process_setlist, hv, ha, hf, hst] at h
  cases hd : get_date_of_setlist doc with
  | error m => simp [process_setlist, hv, ha, hf, hst, hd] at h
  | ok d =>
  cases hven : get_venue doc with
  | error m => simp [process_setlist, hv, ha, hf, hst, hd, hven] at h
  | ok v =>
  cases hne : is_empty_setlist doc with
  | true => simp [process_setlist, hv, ha, hf, hst, hd, hven, hne] at h
  | false =>
  cases hl : get_song_labels doc with
  | error m => simp [process_setlist, hv, ha, hf, hst, hd, hven, hne, hl] at h
  | ok labels =>
  cases hlk : (labels.filterMap (fun l => get_song_link env artist l)).isEmpty with
  | true => simp [process_setlist, hv, ha, hf, hst, hd, hven, hne, hl, hlk] at h
  | false =>
  refine ⟨st, doc, artist, d, v, labels, rfl, rfl, rfl, hst, hd, hven, hne, hl,
      fun hnil => by simp [hnil] at hlk, ?_⟩
  cases hcp : env.createPlaylistApi env.userId
      (pyTitle (artist ++ " - " ++ d ++ " - " ++ v)) pub with
  | error m =>
    simp [process_setlist, hv, ha, hf, hst, hd, hven, hne, hl, hlk, hcp] at h
    exact h
  | ok pid =>
    cases hadd : env.addItemsApi pid
        (labels.filterMap (fun l => get_song_link env artist l)) with
    | error m =>
      simp [process_setlist, hv, ha, hf, hst, hd, hven, hne, hl, hlk, hcp, hadd] at h
      exact h
    | ok u =>
      simp [process_setlist, hv, ha, hf, hst, hd, hven, hne, hl, hlk, hcp, hadd] at h
      exact h

/-! ### Concrete fixtures used by witnesses and counterexamples -/

/-- A well-formed setlist document: date block, headline venue link, and
a songs list with four song labels, one of which strips to empty. -/
def demoDoc : List Node :=
  [ .elem "div" ["dateBlockContainer"] none
      [ .elem "div" ["dateBlock"] none [ .textNode "Jan 1,\n2025" ] ],
    .elem "div" ["setlistHeadline"] none
      [ .elem "a" [] (some "/venue/barrowland") [ .textNode " Barrowland " ] ],
    .elem "ol" ["songsList"] none
      [ .elem "li" [] none [ .elem "a" ["songLabel"] none [ .textNode " Song One " ] ],
        .elem "li" [] none [ .elem "a" ["songLabel"] none [ .textNode "Song Two" ] ],
        .elem "li" [] none [ .elem "a" ["songLabel"] none [ .textNode "  " ] ],
        .elem "li" [] none [ .elem "a" ["songLabel"] none [ .textNode "Song Three" ] ] ] ]

/-- `demoDoc` with the empty-setlist marker element appended. -/
def emptyMarkerDoc : List Node :=
  demoDoc ++ [ .elem "div" ["emptySetlist"] none [ .textNode "No songs" ] ]

/-- A healthy environment: every fetch returns `demoDoc` with status 200,
the search finds every song except "Song Two", playlist calls succeed. -/
def demoEnv : Env where
  fetch := fun _ => .response 200 demoDoc
  search := fun _ song =>
    if song == "Song Two" then .ok [] else .ok (("spotify:" ++ song) :: [])
  userId := "user1"
  createPlaylistApi := fun _ _ _ => .ok "pid1"
  addItemsApi := fun _ _ => .ok ()

/-- A valid setlist URL. -/
def demoUrl : String := "https://www.setlist.fm/setlist/circa-waves/2025/barrowland.html"

/-- Environment whose fetch fails at the transport level. -/
def envDown : Env := { demoEnv with fetch := fun _ => .transportError "connection refused" }

/-- Environment whose fetch returns a 404. -/
def env404 : Env := { demoEnv with fetch := fun _ => .response 404 [] }

/-- Environment whose fetch returns status 304 with a full document. -/
def env304 : Env := { demoEnv with fetch := fun _ => .response 304 demoDoc }

/-- Environment whose fetch returns an empty document (no extraction
targets at all). -/
def envBlank : Env := { demoEnv with fetch := fun _ => .response 200 [] }

/-- Environment that fetches the marker-bearing document. -/
def envEmpty : Env := { demoEnv with fetch := fun _ => .response 200 emptyMarkerDoc }

/-- Environment whose search always returns zero candidates. -/
def envNoCandidates : Env := { demoEnv with search := fun _ _ => .ok [] }

/-- Environment whose search always fails at the service level. -/
def envSearchFail : Env := { demoEnv with search := fun _ _ => .err "rate limited" }

/-- Environment whose playlist creation fails. -/
def envCreateFail : Env :=
  { demoEnv with createPlaylistApi := fun _ _ _ => .error "token expired" }

/-- The full event trace of the healthy demo run. -/
def demoTrace : List Event :=
  [ .httpGet demoUrl, .dateStep, .venueStep, .emptyCheck, .songsStep,
    .searchCall "circa waves" "Song One", .searchCall "circa waves" "Song Two",
    .searchCall "circa waves" "Song Three",
    .createCall "Circa Waves - Jan 1, 2025 - Barrowland",
    .addCall "pid1" ["spotify:Song One", "spotify:Song Three"] ]

/-! ### The claims -/

/-- Claim C1: for every processed setlist document, the track references
passed to the add-tracks call are exactly the resolver's results over the
trimmed texts of the song-label links of the first songs list, in document
order, with empty-trimming entries and unresolved entries omitted and no
reordering (`List.filterMap` preserves relative order by construction). -/
theorem claim_C1_order_preservation (env : Env) (pub : Bool) (url artist : String)
    (st : Nat) (doc : List Node) (d v : String) (labels : List String)
    (hv : validate_setlist_url url = true)
    (ha : deriveArtist url = some artist)
    (hf : env.fetch url = .response st doc)
    (hst : ¬(400 ≤ st ∧ st < 600))
    (hd : get_date_of_setlist doc = .ok d)
    (hven : get_venue doc = .ok v)
    (hne : is_empty_setlist doc = false)
    (hl : get_song_labels doc = .ok labels) :
    (∀ ol, (findAllList "ol" "songsList" doc).head? = some ol →
       labels = ((findAllList "a" "songLabel" (childrenOf ol)).map
           (fun l => pyStrip (nodeText l))).filter (fun s => s ≠ ""))
    ∧ (∀ pid links, Event.addCall pid links ∈ (process_setlist env pub url).2 →
         links = labels.filterMap (fun l => get_song_link env artist l)) := by
  constructor
  · intro ol hol
    simp only [get_song_labels, hol, Except.ok.injEq] at hl
    exact hl.symm
  · intro pid links hmem
    cases hlk : (labels.filterMap (fun l => get_song_link env artist l)).isEmpty with
    | true =>
      simp [process_setlist, hv, ha, hf, hst, hd, hven, hne, hl, hlk] at hmem
    | false =>
      cases hcp : env.createPlaylistApi env.userId
          (pyTitle (artist ++ " - " ++ d ++ " - " ++ v)) pub with
      | error m =>
        simp [process_setlist, hv, ha, hf, hst, hd, hven, hne, hl, hlk, hcp] at hmem
      | ok pid0 =>
        cases hadd : env.addItemsApi pid0
            (labels.filterMap (fun l => get_song_link env artist l)) with
        | error m =>
          simp [process_setlist, hv, ha, hf, hst, hd, hven, hne, hl, hlk, hcp, hadd] at hmem
          exact hmem.2
        | ok u =>
          simp [process_setlist, hv, ha, hf, hst, hd, hven, hne, hl, hlk, hcp, hadd] at hmem
          exact hmem.2

/-- Claim C1 witness: in the healthy demo run the add-tracks call receives
exactly the resolved links for the three non-empty labels, in order, with
the unresolved "Song Two" omitted. -/
theorem claim_C1_witness :
    (["spotify:Song One", "spotify:Song Three"] : List String)
      = ["Song One", "Song Two", "Song Three"].filterMap
          (fun l => get_song_link demoEnv "circa waves" l) :=
  (claim_C1_order_preservation demoEnv false demoUrl "circa waves" 200 demoDoc
      "Jan 1, 2025" "Barrowland" ["Song One", "Song Two", "Song Three"]
      rfl rfl rfl (by omega) rfl rfl rfl rfl).2
    "pid1" ["spotify:Song One", "spotify:Song Three"]
    (by rw [show (process_setlist demoEnv false demoUrl).2 = demoTrace from rfl]
        simp [demoTrace])

/-- Claim C2: `get_song_link` is total, returns `none` when the search
yields zero candidates, returns `none` when the search call fails, and a
failed resolution never aborts the rest: in a run that reaches resolution,
the trace contains exactly one search call per extracted label in order,
whatever the individual search outcomes. -/
theorem claim_C2_resolver_never_raises (env : Env) (artist song : String) :
    (env.search artist song = .ok [] → get_song_link env artist song = none)
    ∧ (∀ m, env.search artist song = .err m → get_song_link env artist song = none)
    ∧ (∀ pub url st doc labels,
        validate_setlist_url url = true →
        deriveArtist url = some artist →
        env.fetch url = .response st doc →
        ¬(400 ≤ st ∧ st < 600) →
        (∃ d, get_date_of_setlist doc = .ok d) →
        (∃ v, get_venue doc = .ok v) →
        is_empty_setlist doc = false →
        get_song_labels doc = .ok labels →
        (process_setlist env pub url).2.filter (fun e => isSearchEvent e)
          = labels.map (fun l => Event.searchCall artist l)) := by
  refine ⟨fun h => by simp [get_song_link, h], fun m h => by simp [get_song_link, h], ?_⟩
  intro pub url st doc labels hv ha hf hst hd hven hne hl
  obtain ⟨d, hd⟩ := hd
  obtain ⟨v, hven⟩ := hven
  have hmapf : (labels.map (fun l => Event.searchCall artist l)).filter
      (fun e => isSearchEvent e) = labels.map (fun l => Event.searchCall artist l) := by
    rw [List.filter_map]
    have hall : (labels.filter
        ((fun e => isSearchEvent e) ∘ fun l => Event.searchCall artist l)) = labels := by
      apply List.filter_eq_self.mpr
      intro a ha2
      simp [isSearchEvent, Function.comp]
    rw [hall]
  cases hlk : (labels.filterMap (fun l => get_song_link env artist l)).isEmpty with
  | true =>
    simp only [process_setlist, hv, ha, hf, hst, hd, hven, hne, hl, hlk]
    simp [List.filter_append, hmapf, isSearchEvent]
  | false =>
    cases hcp : env.createPlaylistApi env.userId
        (pyTitle (artist ++ " - " ++ d ++ " - " ++ v)) pub with
    | error m =>
      simp only [process_setlist, hv, ha, hf, hst, hd, hven, hne, hl, hlk, hcp]
      simp [List.filter_append, hmapf, isSearchEvent]
    | ok pid0 =>
      cases hadd : env.addItemsApi pid0
          (labels.filterMap (fun l => get_song_link env artist l)) with
      | error m =>
        simp only [process_setlist, hv, ha, hf, hst, hd, hven, hne, hl, hlk, hcp, hadd]
        simp [List.filter_append, hmapf, isSearchEvent]
      | ok u =>
        simp only [process_setlist, hv, ha, hf, hst, hd, hven, hne, hl, hlk, hcp, hadd]
        simp [List.filter_append, hmapf, isSearchEvent]

/-- Claim C2 witness: zero candidates and a failing search both give
`none`, and with every search failing the trace still contains one search
per label, in order. -/
theorem claim_C2_witness :
    get_song_link envNoCandidates "circa waves" "Song One" = none
    ∧ get_song_link envSearchFail "circa waves" "Song One" = none
    ∧ (process_setlist envSearchFail false demoUrl).2.filter (fun e => isSearchEvent e)
        = ["Song One", "Song Two", "Song Three"].map
            (fun l => Event.searchCall "circa waves" l) :=
  ⟨(claim_C2_resolver_never_raises envNoCandidates "circa waves" "Song One").1 rfl,
   (claim_C2_resolver_never_raises envSearchFail "circa waves" "Song One").2.1
     "rate limited" rfl,
   (claim_C2_resolver_never_raises envSearchFail "circa waves" "Song One").2.2
     false demoUrl 200 demoDoc ["Song One", "Song Two", "Song Three"]
     rfl rfl rfl (by omega) ⟨"Jan 1, 2025", rfl⟩ ⟨"Barrowland", rfl⟩ rfl rfl⟩

/-- Claim C3: validation accepts exactly the URLs whose parsed host is
`www.setlist.fm` and whose parsed path contains `/setlist/`; a URL failing
validation is logged and skipped with an empty event trace — no network
call of any kind. -/
theorem claim_C3_validate_iff_and_no_network (url : String) :
    (validate_setlist_url url = true ↔
      ((urlparse url).netloc = "www.setlist.fm"
        ∧ containsSub "/setlist/" (urlparse url).path = true))
    ∧ (validate_setlist_url url = false →
        ∀ env pub, process_setlist env pub url = (.invalidUrl, [])) := by
  constructor
  · simp [validate_setlist_url]
  · intro h env pub
    simp [process_setlist, h]

/-- Claim C3 witness: a URL on the wrong host is rejected with no events. -/
theorem claim_C3_witness :
    process_setlist envDown false "https://musicbrainz.org/setlist/x"
      = (.invalidUrl, []) :=
  (claim_C3_validate_iff_and_no_network "https://musicbrainz.org/setlist/x").2
    rfl envDown false

/-- Claim C4: when the empty-setlist marker is present in the fetched
document, `is_empty_setlist` returns true, the run ends in a skip (never
the created outcome), song extraction is never entered, and no playlist
creation or add-tracks call is issued; when date and venue extraction
succeed the outcome is precisely the empty-setlist skip. -/
theorem claim_C4_empty_marker_skips (env : Env) (pub : Bool) (url : String)
    (st : Nat) (doc : List Node)
    (hf : env.fetch url = .response st doc)
    (hm : findAllList "div" "emptySetlist" doc ≠ []) :
    is_empty_setlist doc = true
    ∧ (∀ n, (process_setlist env pub url).1 ≠ .created n)
    ∧ Event.songsStep ∉ (process_setlist env pub url).2
    ∧ (∀ n, Event.createCall n ∉ (process_setlist env pub url).2)
    ∧ (∀ p l, Event.addCall p l ∉ (process_setlist env pub url).2)
    ∧ (∀ d v a, validate_setlist_url url = true → deriveArtist url = some a →
        ¬(400 ≤ st ∧ st < 600) →
        get_date_of_setlist doc = .ok d → get_venue doc = .ok v →
        process_setlist env pub url
          = (.emptySkip, [.httpGet url, .dateStep, .venueStep, .emptyCheck])) := by
  have hemp : is_empty_setlist doc = true := by
    rw [is_empty_setlist]
    cases hfa : findAllList "div" "emptySetlist" doc with
    | nil => exact absurd hfa hm
    | cons a l => simp
  have hskip : ∀ d v a, validate_setlist_url url = true → deriveArtist url = some a →
      ¬(400 ≤ st ∧ st < 600) →
      get_date_of_setlist doc = .ok d → get_venue doc = .ok v →
      process_setlist env pub url
        = (.emptySkip, [.httpGet url, .dateStep, .venueStep, .emptyCheck]) := by
    intro d v a hv ha hst hd hven
    simp [process_setlist, hv, ha, hf, hst, hd, hven, hemp]
  have hproc : process_setlist env pub url = (.invalidUrl, [])
      ∨ process_setlist env pub url = (.unexpectedError "list index out of range", [])
      ∨ (∃ m, process_setlist env pub url = (.fetchFailed m, [.httpGet url]))
      ∨ (∃ m, process_setlist env pub url
          = (.errorProcessing m, [.httpGet url, .dateStep]))
      ∨ (∃ m, process_setlist env pub url
          = (.errorProcessing m, [.httpGet url, .dateStep, .venueStep]))
      ∨ process_setlist env pub url
          = (.emptySkip, [.httpGet url, .dateStep, .venueStep, .emptyCheck]) := by
    cases hv : validate_setlist_url url with
    | false => exact Or.inl (by simp [process_setlist, hv])
    | true =>
    cases ha : deriveArtist url with
    | none => exact Or.inr (Or.inl (by simp [process_setlist, hv, ha]))
    | some artist =>
    by_cases hst : 400 ≤ st ∧ st < 600
    · exact Or.inr (Or.inr (Or.inl
        ⟨"HTTP " ++ toString st, by simp [process_setlist, hv, ha, hf, hst]⟩))
    cases hd : get_date_of_setlist doc with
    | error m => exact Or.inr (Or.inr (Or.inr (Or.inl
        ⟨m, by simp [process_setlist, hv, ha, hf, hst, hd]⟩)))
    | ok d =>
    cases hven : get_venue doc with
    | error m => exact Or.inr (Or.inr (Or.inr (Or.inr (Or.inl
        ⟨m, by simp [process_setlist, hv, ha, hf, hst, hd, hven]⟩))))
    | ok v =>
      exact Or.inr (Or.inr (Or.inr (Or.inr (Or.inr
        (by simp [process_setlist, hv, ha, hf, hst, hd, hven, hemp])))))
  refine ⟨hemp, ?_, ?_, ?_, ?_, hskip⟩ <;>
    rcases hproc with h | h | ⟨m, h⟩ | ⟨m, h⟩ | ⟨m, h⟩ | h <;> rw [h] <;> simp

/-- Claim C4 witness: with the marker present, the demo pipeline ends in
the empty-setlist skip with no song extraction or playlist calls. -/
theorem claim_C4_witness :
    is_empty_setlist emptyMarkerDoc = true
    ∧ process_setlist envEmpty false demoUrl
        = (.emptySkip, [.httpGet demoUrl, .dateStep, .venueStep, .emptyCheck]) :=
  have h := claim_C4_empty_marker_skips envEmpty false demoUrl 200 emptyMarkerDoc rfl
    (by rw [show findAllList "div" "emptySetlist" emptyMarkerDoc
          = [Node.elem "div" ["emptySetlist"] none [Node.textNode "No songs"]] from rfl]
        exact List.cons_ne_nil _ _)
  ⟨h.1, h.2.2.2.2.2 "Jan 1, 2025" "Barrowland" "circa waves"
    rfl rfl (by omega) rfl rfl⟩

/-- Claim C5: each extractor signals the `SetlistError`-style error value
when its target is absent (date container, venue link, songs list), and
the pipeline maps such an error to the logged `errorProcessing` outcome,
stopping before any search or playlist call and proceeding with the rest
of the batch. -/
theorem claim_C5_missing_target_errors :
    (∀ doc : List Node, findAllList "div" "dateBlockContainer" doc = [] →
       get_date_of_setlist doc = .error "Failed to extract setlist date")
    ∧ (∀ doc : List Node, venueCandsList false doc = [] →
       get_venue doc = .error "Failed to extract venue")
    ∧ (∀ doc : List Node, findAllList "ol" "songsList" doc = [] →
       get_song_labels doc = .error "Failed to extract song labels")
    ∧ (∀ env pub url artist st doc m, validate_setlist_url url = true →
        deriveArtist url = some artist → env.fetch url = .response st doc →
        ¬(400 ≤ st ∧ st < 600) →
        get_date_of_setlist doc = .error m →
        process_setlist env pub url
          = (.errorProcessing m, [.httpGet url, .dateStep]))
    ∧ (∀ env pub url artist st doc d m, validate_setlist_url url = true →
        deriveArtist url = some artist → env.fetch url = .response st doc →
        ¬(400 ≤ st ∧ st < 600) →
        get_date_of_setlist doc = .ok d → get_venue doc = .error m →
        process_setlist env pub url
          = (.errorProcessing m, [.httpGet url, .dateStep, .venueStep]))
    ∧ (∀ env pub url artist st doc d v m, validate_setlist_url url = true →
        deriveArtist url = some artist → env.fetch url = .response st doc →
        ¬(400 ≤ st ∧ st < 600) →
        get_date_of_setlist doc = .ok d → get_venue doc = .ok v →
        is_empty_setlist doc = false → get_song_labels doc = .error m →
        process_setlist env pub url
          = (.errorProcessing m,
             [.httpGet url, .dateStep, .venueStep, .emptyCheck, .songsStep]))
    ∧ (∀ env pub urls, processBatch env pub urls
        = urls.map (process_setlist env pub)) := by
  refine ⟨?_, ?_, ?_, ?_, ?_, ?_, fun env pub urls => processBatch_eq_map env pub urls⟩
  · intro doc h
    simp [get_date_of_setlist, h]
  · intro doc h
    simp [get_venue, h]
  · intro doc h
    simp [get_song_labels, h]
  · intro env pub url artist st doc m hv ha hf hst hd
    simp [process_setlist, hv, ha, hf, hst, hd]
  · intro env pub url artist st doc d m hv ha hf hst hd hven
    simp [process_setlist, hv, ha, hf, hst, hd, hven]
  · intro env pub url artist st doc d v m hv ha hf hst hd hven hne hl
    simp [process_setlist, hv, ha, hf, hst, hd, hven, hne, hl]

/-- Claim C5 witness: on the empty document every extractor errors, and
the pipeline on a blank fetch ends with the date error after only the GET
and the date step. -/
theorem claim_C5_witness :
    get_date_of_setlist [] = .error "Failed to extract setlist date"
    ∧ get_venue [] = .error "Failed to extract venue"
    ∧ get_song_labels [] = .error "Failed to extract song labels"
    ∧ process_setlist envBlank false demoUrl
        = (.errorProcessing "Failed to extract setlist date",
           [.httpGet demoUrl, .dateStep]) :=
  ⟨claim_C5_missing_target_errors.1 [] rfl,
   claim_C5_missing_target_errors.2.1 [] rfl,
   claim_C5_missing_target_errors.2.2.1 [] rfl,
   claim_C5_missing_target_errors.2.2.2.1 envBlank false demoUrl "circa waves" 200 []
     "Failed to extract setlist date" rfl rfl rfl (by omega) rfl⟩

/-- Claim C6: when playlist creation fails, the run's outcome is the
logged playlist-creation failure, no add-tracks call appears in the trace,
and the batch goes on to the next URL. -/
theorem claim_C6_create_failure (env : Env) (pub : Bool) (url artist : String)
    (st : Nat) (doc : List Node) (d v m : String) (labels : List String)
    (rest : List String)
    (hv : validate_setlist_url url = true)
    (ha : deriveArtist url = some artist)
    (hf : env.fetch url = .response st doc)
    (hst : ¬(400 ≤ st ∧ st < 600))
    (hd : get_date_of_setlist doc = .ok d)
    (hven : get_venue doc = .ok v)
    (hne : is_empty_setlist doc = false)
    (hl : get_song_labels doc = .ok labels)
    (hlk : (labels.filterMap (fun l => get_song_link env artist l)).isEmpty = false)
    (hcre : env.createPlaylistApi env.userId
        (pyTitle (artist ++ " - " ++ d ++ " - " ++ v)) pub = .error m) :
    process_setlist env pub url
      = (.errorProcessing ("Failed to create playlist: " ++ m),
         [Event.httpGet url, .dateStep, .venueStep, .emptyCheck, .songsStep]
           ++ labels.map (fun l => Event.searchCall artist l)
           ++ [.createCall (pyTitle (artist ++ " - " ++ d ++ " - " ++ v))])
    ∧ (∀ p l, Event.addCall p l ∉ (process_setlist env pub url).2)
    ∧ processBatch env pub (url :: rest)
        = process_setlist env pub url :: rest.map (process_setlist env pub) := by
  have hp : process_setlist env pub url
      = (.errorProcessing ("Failed to create playlist: " ++ m),
         [Event.httpGet url, .dateStep, .venueStep, .emptyCheck, .songsStep]
           ++ labels.map (fun l => Event.searchCall artist l)
           ++ [.createCall (pyTitle (artist ++ " - " ++ d ++ " - " ++ v))]) := by
    simp [process_setlist, hv, ha, hf, hst, hd, hven, hne, hl, hlk, hcre]
  refine ⟨hp, ?_, ?_⟩
  · intro p l
    rw [hp]
    simp
  · rw [processBatch, processBatch_eq_map]

/-- Claim C6 witness: the demo run with a failing create call ends in the
playlist-creation failure, with the add call absent. -/
theorem claim_C6_witness :
    process_setlist envCreateFail false demoUrl
      = (.errorProcessing "Failed to create playlist: token expired",
         [Event.httpGet demoUrl, .dateStep, .venueStep, .emptyCheck, .songsStep]
           ++ ["Song One", "Song Two", "Song Three"].map
               (fun l => Event.searchCall "circa waves" l)
           ++ [.createCall "Circa Waves - Jan 1, 2025 - Barrowland"]) :=
  (claim_C6_create_failure envCreateFail false demoUrl "circa waves" 200 demoDoc
      "Jan 1, 2025" "Barrowland" "token expired"
      ["Song One", "Song Two", "Song Three"] []
      rfl rfl rfl (by omega) rfl rfl rfl rfl rfl rfl).1

/-- Claim C7: every playlist-creation call in any run carries the name
`pyTitle (artist ++ " - " ++ date ++ " - " ++ venue)` for the values the
run extracted; the derivation is a pure function (deterministic) and
title-casing is idempotent; the concrete composition for the claim's
inputs is exact. -/
theorem claim_C7_playlist_name :
    (∀ env pub url name, Event.createCall name ∈ (process_setlist env pub url).2 →
       ∃ st doc artist d v,
         env.fetch url = .response st doc ∧ deriveArtist url = some artist ∧
         get_date_of_setlist doc = .ok d ∧ get_venue doc = .ok v ∧
         name = pyTitle (artist ++ " - " ++ d ++ " - " ++ v))
    ∧ (∀ s, pyTitle (pyTitle s) = pyTitle s)
    ∧ pyTitle ("circa waves" ++ " - " ++ "2025" ++ " - "
          ++ "barrowland glasgow scotland")
        = "Circa Waves - 2025 - Barrowland Glasgow Scotland" := by
  refine ⟨?_, pyTitle_idem, by decide⟩
  intro env pub url name h
  obtain ⟨st, doc, artist, d, v, labels, _, ha, hf, _, hd, hven, _, _, _, hname⟩ :=
    createCall_mem_inversion env pub url name h
  exact ⟨st, doc, artist, d, v, hf, ha, hd, hven, hname⟩

/-- Claim C7 witness: the demo run's create call carries the title-cased
composed name. -/
theorem claim_C7_witness :
    ∃ st doc artist d v,
      demoEnv.fetch demoUrl = .response st doc ∧ deriveArtist demoUrl = some artist ∧
      get_date_of_setlist doc = .ok d ∧ get_venue doc = .ok v ∧
      "Circa Waves - Jan 1, 2025 - Barrowland"
        = pyTitle (artist ++ " - " ++ d ++ " - " ++ v) :=
  claim_C7_playlist_name.1 demoEnv false demoUrl
    "Circa Waves - Jan 1, 2025 - Barrowland"
    (by rw [show (process_setlist demoEnv false demoUrl).2 = demoTrace from rfl]
        simp [demoTrace])

/-- Claim C8: with zero resolved tracks the pipeline logs the no-matches
skip and never calls playlist creation; conversely any creation call comes
from a non-empty setlist with a non-empty resolved list; the
no-matches condition is distinct from the empty-setlist condition. -/
theorem claim_C8_create_only_with_tracks :
    (∀ env pub url artist st doc d v labels,
        validate_setlist_url url = true →
        deriveArtist url = some artist →
        env.fetch url = .response st doc →
        ¬(400 ≤ st ∧ st < 600) →
        get_date_of_setlist doc = .ok d →
        get_venue doc = .ok v →
        is_empty_setlist doc = false →
        get_song_labels doc = .ok labels →
        labels.filterMap (fun l => get_song_link env artist l) = [] →
        process_setlist env pub url
          = (.noMatches,
             [Event.httpGet url, .dateStep, .venueStep, .emptyCheck, .songsStep]
               ++ labels.map (fun l => Event.searchCall artist l))
          ∧ ∀ n, Event.createCall n ∉ (process_setlist env pub url).2)
    ∧ (∀ env pub url name, Event.createCall name ∈ (process_setlist env pub url).2 →
        ∃ st doc artist labels,
          env.fetch url = .response st doc
          ∧ deriveArtist url = some artist
          ∧ is_empty_setlist doc = false
          ∧ get_song_labels doc = .ok labels
          ∧ labels.filterMap (fun l => get_song_link env artist l) ≠ [])
    ∧ Outcome.noMatches ≠ Outcome.emptySkip := by
  refine ⟨?_, ?_, by simp⟩
  · intro env pub url artist st doc d v labels hv ha hf hst hd hven hne hl hnone
    have hp : process_setlist env pub url
        = (.noMatches,
           [Event.httpGet url, .dateStep, .venueStep, .emptyCheck, .songsStep]
             ++ labels.map (fun l => Event.searchCall artist l)) := by
      simp [process_setlist, hv, ha, hf, hst, hd, hven, hne, hl, hnone]
    refine ⟨hp, ?_⟩
    intro n
    rw [hp]
    simp
  · intro env pub url name h
    obtain ⟨st, doc, artist, d, v, labels, _, ha, hf, _, _, _, hne, hl, hlk, _⟩ :=
      createCall_mem_inversion env pub url name h
    exact ⟨st, doc, artist, labels, hf, ha, hne, hl, hlk⟩

/-- Claim C8 witness: with zero candidates everywhere, the demo run ends
in the no-matches skip after searching every label, and no create call
occurs. -/
theorem claim_C8_witness :
    process_setlist envNoCandidates false demoUrl
      = (.noMatches,
         [Event.httpGet demoUrl, .dateStep, .venueStep, .emptyCheck, .songsStep]
           ++ ["Song One", "Song Two", "Song Three"].map
               (fun l => Event.searchCall "circa waves" l)) :=
  (claim_C8_create_only_with_tracks.1 envNoCandidates false demoUrl "circa waves"
      200 demoDoc "Jan 1, 2025" "Barrowland" ["Song One", "Song Two", "Song Three"]
      rfl rfl rfl (by omega) rfl rfl rfl rfl rfl).1

/-- Claim C9 counterexample: a fetch that returns the non-2xx status 304
is not treated as a fetch failure — the run proceeds through extraction,
resolution and playlist creation, contrary to the claim that every
non-2xx response is logged and skipped before extraction. -/
theorem claim_C9_counterexample :
    (304 < 200 ∨ 299 < 304)
    ∧ env304.fetch demoUrl = .response 304 demoDoc
    ∧ (process_setlist env304 false demoUrl).1
        = .created "Circa Waves - Jan 1, 2025 - Barrowland"
    ∧ Event.createCall "Circa Waves - Jan 1, 2025 - Barrowland"
        ∈ (process_setlist env304 false demoUrl).2 := by
  refine ⟨by omega, rfl, rfl, ?_⟩
  rw [show (process_setlist env304 false demoUrl).2 = demoTrace from rfl]
  simp [demoTrace]

/-- Claim C9 (amended): a transport-level failure, or an HTTP status in
the 4xx/5xx range (the statuses `raise_for_status` rejects), is treated
as a fetch failure: the run logs and skips after only the GET, and the
batch proceeds to the next URL. -/
theorem claim_C9_fetch_failures (env : Env) (pub : Bool) (url artist m : String)
    (st : Nat) (doc : List Node) (rest : List String)
    (hv : validate_setlist_url url = true)
    (ha : deriveArtist url = some artist) :
    (env.fetch url = .transportError m →
       process_setlist env pub url = (.fetchFailed m, [.httpGet url]))
    ∧ (env.fetch url = .response st doc → 400 ≤ st → st < 600 →
       process_setlist env pub url
         = (.fetchFailed ("HTTP " ++ toString st), [.httpGet url]))
    ∧ processBatch env pub (url :: rest)
        = process_setlist env pub url :: rest.map (process_setlist env pub) := by
  refine ⟨?_, ?_, ?_⟩
  · intro hf
    simp [process_setlist, hv, ha, hf]
  · intro hf h1 h2
    simp [process_setlist, hv, ha, hf, h1, h2]
  · rw [processBatch, processBatch_eq_map]

/-- Claim C9 witness: a transport error and a 404 each end the run after
only the GET. -/
theorem claim_C9_witness :
    process_setlist envDown false demoUrl
      = (.fetchFailed "connection refused", [.httpGet demoUrl])
    ∧ process_setlist env404 false demoUrl
      = (.fetchFailed ("HTTP " ++ toString 404), [.httpGet demoUrl]) :=
  ⟨(claim_C9_fetch_failures envDown false demoUrl "circa waves" "connection refused"
      404 [] [] rfl rfl).1 rfl,
   (claim_C9_fetch_failures env404 false demoUrl "circa waves" "x"
      404 [] [] rfl rfl).2.1 rfl (by omega) (by omega)⟩

/-- Claim C10: there is a URL that passes validation yet lacks the
substring `setlist.fm/setlist/`; every such URL makes the artist slicing
raise (modelled as `deriveArtist = none`), the run ends in the generic
unexpected-error outcome — not the validation outcome — with an empty
trace, so the HTTP GET is never issued. -/
theorem claim_C10_validation_slug_gap :
    (validate_setlist_url "https://www.setlist.fm/foo/setlist/bar" = true
      ∧ containsSub "setlist.fm/setlist/" "https://www.setlist.fm/foo/setlist/bar"
          = false)
    ∧ (∀ url env pub, validate_setlist_url url = true →
        containsSub "setlist.fm/setlist/" url = false →
        deriveArtist url = none
        ∧ process_setlist env pub url
            = (.unexpectedError "list index out of range", [])
        ∧ (process_setlist env pub url).1 ≠ .invalidUrl
        ∧ (∀ u, Event.httpGet u ∉ (process_setlist env pub url).2)) := by
  refine ⟨⟨by decide, by decide⟩, ?_⟩
  intro url env pub hv hc
  have hfind : findSub ("setlist.fm/setlist/".toList) url.toList = none := by
    cases hfs : findSub ("setlist.fm/setlist/".toList) url.toList with
    | none => rfl
    | some i =>
      rw [containsSub, hfs] at hc
      simp at hc
  have hda : deriveArtist url = none := by
    have hsplit := pySplit_of_no_occurrence "setlist.fm/setlist/" url hfind
    simp only [deriveArtist, hsplit]
  refine ⟨hda, by simp [process_setlist, hv, hda], ?_, ?_⟩
  · simp [process_setlist, hv, hda]
  · intro u
    simp [process_setlist, hv, hda]

/-- Claim C10 witness: the concrete gap URL is skipped by the generic
handler with no GET. -/
theorem claim_C10_witness :
    process_setlist envDown false "https://www.setlist.fm/foo/setlist/bar"
      = (.unexpectedError "list index out of range", []) :=
  ((claim_C10_validation_slug_gap.2 "https://www.setlist.fm/foo/setlist/bar"
      envDown false rfl rfl).2.1)

end SetlistFM
